import Mathlib

/-!
Verification of the wgmgmt status reconciliation engine: a shallow
embedding of `supabase/functions/wireguard-manager/index.ts`:
the handshake time parser, the recency predicate, the transfer-unit
parser, the `wg show` status-text parser, the mock fallback snapshot,
and the record-store operations `syncWireGuardStatus`, `getPeerStatus`
and `createPeer`.

Conventions of the embedding:
* JS strings are processed as `List Char`; timestamps are integers
  (milliseconds since epoch, standing in for `Date`/ISO strings, with
  `now` passed explicitly where the source reads the clock).
* JS regular-expression searches are embedded as explicit left-to-right
  scanners with the same leftmost-match semantics as the concrete
  patterns in the source (the patterns involved need no backtracking
  beyond the optional-letter cases handled below).
* Decimal numbers ("1.95") are kept exact as `mantissa / 10^fracLen`;
  `Math.floor(value * mult)` is `mantissa * mult / 10 ^ fracLen` in
  natural-number division.  This is exact real arithmetic; for every
  input appearing in the claims the double-precision computation of the
  source yields the same integer.
* The supabase-js v2 query builder returns errors as values and does
  not raise; every other call site in the source file checks the
  returned `error` field explicitly.  Store failures are therefore
  modelled as injected per-record failure sets that leave the record
  unchanged without raising.
-/

namespace WgMgmt

/-! ## JS-flavoured string helpers -/

/-- Embeds JS `\s` on the whitespace characters that can occur in `wg` output. -/
def isWs (c : Char) : Bool :=
  c = ' ' || c = '\t' || c = '\n' || c = '\r'

/-- Takes the maximal digit run at the head (the greedy `\d+`). -/
def spanDigits (l : List Char) : List Char × List Char :=
  (l.takeWhile Char.isDigit, l.dropWhile Char.isDigit)

/-- Takes the maximal whitespace run at the head (the greedy `\s+` / `\s*`). -/
def spanWs (l : List Char) : List Char × List Char :=
  (l.takeWhile isWs, l.dropWhile isWs)

/-- Embeds JS `parseInt` on a digit run. -/
def digitsToNat (l : List Char) : Nat :=
  l.foldl (fun a c => a * 10 + (c.toNat - '0'.toNat)) 0

/-- Strips a literal word at the head: returns the remainder after it. -/
def stripWord (w : List Char) (l : List Char) : Option (List Char) :=
  if w.isPrefixOf l then some (l.drop w.length) else none

/-- Embeds JS `String.includes(sub)`. -/
def containsSub (sub : List Char) : List Char → Bool
  | [] => sub.isPrefixOf ([] : List Char)
  | c :: t => sub.isPrefixOf (c :: t) || containsSub sub t

/-- Embeds JS `String.includes` on `String`. -/
def strContains (s sub : String) : Bool :=
  containsSub sub.data s.data

/-- Embeds JS `String.startsWith` (kept on `List Char` so that concrete
instances evaluate definitionally). -/
def startsWithStr (s pre : String) : Bool :=
  pre.data.isPrefixOf s.data

/-- Embeds JS `split(sep)` for a single-character separator. -/
def splitOnChar (c : Char) : List Char → List (List Char)
  | [] => [[]]
  | x :: t =>
    let r := splitOnChar c t
    if x = c then [] :: r
    else
      match r with
      | h :: t' => (x :: h) :: t'
      | [] => [[x]]

/-- Embeds JS `trim()`. -/
def trimChars (l : List Char) : List Char :=
  (l.dropWhile isWs).reverse.dropWhile isWs |>.reverse

/-! ## §4.2 Time parser (`parseHandshakeTime`, `isRecentHandshake`) -/

/-- Matches `\s+<word>s?\s+ago` at the head of `l` (the tail of the
clause patterns in `parseHandshakeTime` / `isRecentHandshake` after the
digits); returns the remainder after `ago`.  The optional `s` needs no
further backtracking: dropping a matched `s` leaves `s` at the head,
which can never start `\s+`. -/
def matchUnitTail (w : List Char) (l : List Char) : Option (List Char) :=
  let r1 := (spanWs l).2
  if (spanWs l).1 = [] then none
  else
    match stripWord w r1 with
    | none => none
    | some r2 =>
      let afterS := match r2 with
        | 's' :: r3 => r3
        | _ => r2
      let r4 := (spanWs afterS).2
      if (spanWs afterS).1 = [] then none
      else stripWord "ago".data r4

/-- Matches `(\d+)\s+<word>s?\s+ago` at the head of `l`: value and
remainder.  Shrinking the greedy `\d+` never helps (the next character
would still be a digit where `\s+` is required), so the scan is
backtracking-free, like the JS engine on these patterns. -/
def matchClauseAt (w : List Char) (l : List Char) : Option (Nat × List Char) :=
  let ds := (spanDigits l).1
  if ds = [] then none
  else
    match matchUnitTail w (spanDigits l).2 with
    | none => none
    | some rest => some (digitsToNat ds, rest)

/-- Performs the leftmost (non-global) search for `(\d+)\s+<word>s?\s+ago`, as in
`text.match(/(\d+)\s+seconds?\s+ago/)`: the captured integer. -/
def findClause (w : List Char) : List Char → Option Nat
  | [] => none
  | c :: t =>
    match matchClauseAt w (c :: t) with
    | some r => some r.1
    | none => findClause w t

/-- Embeds `isRecentHandshake` (index.ts:626-644): `Never`/`never` is never
recent; otherwise the first `<n> seconds ago` clause anywhere in the
text decides by `n ≤ 180`, and only when no seconds clause exists at
all does the first `<n> minutes ago` clause decide by `n ≤ 3`. -/
def isRecentHandshake (s : String) : Bool :=
  if strContains s "Never" || strContains s "never" then false
  else
    match findClause "second".data s.data with
    | some v => v ≤ 180
    | none =>
      match findClause "minute".data s.data with
      | some v => v ≤ 3
      | none => false

/-- Matches `(\d+)\s+(second|minute|hour|day)s?\s+ago` at the head of
`l`: clause seconds (value times unit) and remainder.  At a given
position at most one unit word can match, so the alternation is
deterministic. -/
def matchAnyClauseAt (l : List Char) : Option (Nat × List Char) :=
  match matchClauseAt "second".data l with
  | some r => some r
  | none =>
    match matchClauseAt "minute".data l with
    | some r => some (r.1 * 60, r.2)
    | none =>
      match matchClauseAt "hour".data l with
      | some r => some (r.1 * 3600, r.2)
      | none =>
        match matchClauseAt "day".data l with
        | some r => some (r.1 * 86400, r.2)
        | none => none

/-- Performs the global search, as in `match(/.../g)`: all non-overlapping clause
matches left to right, resuming after each match.  Fueled by the input
length, which every step strictly decreases. -/
def collectClausesFuel : Nat → List Char → List Nat
  | 0, _ => []
  | _, [] => []
  | fuel + 1, c :: t =>
    match matchAnyClauseAt (c :: t) with
    | some r => r.1 :: collectClausesFuel fuel r.2
    | none => collectClausesFuel fuel t

def collectClauses (l : List Char) : List Nat :=
  collectClausesFuel l.length l

/-- The total seconds summed by `parseHandshakeTime`
(index.ts:587-624): `none` for `Never`/`never` or when the global
clause match finds nothing (the function returns `null` there). -/
def parseHandshakeTotalSeconds (s : String) : Option Nat :=
  if strContains s "Never" || strContains s "never" then none
  else
    match collectClauses s.data with
    | [] => none
    | cs => some (cs.foldl (· + ·) 0)

/-- Embeds `parseHandshakeTime` with the clock passed explicitly:
`new Date(now.getTime() - totalSeconds * 1000).toISOString()` as an
absolute millisecond timestamp. -/
def parseHandshakeTime (now : Int) (s : String) : Option Int :=
  (parseHandshakeTotalSeconds s).map (fun t => now - Int.ofNat (t * 1000))

/-! ### The spec's clause format (§4.2)

The spec's input contract: one or more `<int> <unit>` clauses joined by
`", "`, with a final `" ago"`, resolving to the sum of the clauses.
`renderClauses` produces exactly the `wg show` wording
(`"1 hour, 21 minutes, 2 seconds ago"`), `clausesTotalSeconds` its
resolution per the spec. -/

inductive TimeUnit
  | second
  | minute
  | hour
  | day
deriving DecidableEq

def TimeUnit.secs : TimeUnit → Nat
  | .second => 1
  | .minute => 60
  | .hour => 3600
  | .day => 86400

def TimeUnit.word : TimeUnit → String
  | .second => "second"
  | .minute => "minute"
  | .hour => "hour"
  | .day => "day"

def renderClause (p : Nat × TimeUnit) : String :=
  toString p.1 ++ " " ++ p.2.word ++ (if p.1 = 1 then "" else "s")

def renderClauses (cs : List (Nat × TimeUnit)) : String :=
  String.intercalate ", " (cs.map renderClause) ++ " ago"

def clausesTotalSeconds (cs : List (Nat × TimeUnit)) : Nat :=
  (cs.map (fun p => p.1 * p.2.secs)).foldl (· + ·) 0

/-! ## §4.1 Transfer unit parser (`parseTransferAmount`) -/

/-- Embeds JS `parseFloat` on a `[\d.]+` span: exact value as
`mantissa / 10 ^ fracLen`.  Integer digits up to the first dot, then
fraction digits up to the next non-digit (a second dot ends the
number, as `parseFloat("1.2.3") = 1.2`).  A span with no leading
digits before the dot contributes integer part 0 (`parseFloat(".5")`).
The NaN outcome of an all-dots span is not modelled (it cannot reach a
unit match in `parseTransferAmount`'s pattern anyway, because claims
only exercise well-formed numbers). -/
def parseFloatDec (l : List Char) : Nat × Nat :=
  let ip := (spanDigits l).1
  match (spanDigits l).2 with
  | '.' :: rest =>
    let fp := (spanDigits rest).1
    (digitsToNat ip * 10 ^ fp.length + digitsToNat fp, fp.length)
  | _ => (digitsToNat ip, 0)

/-- The `multipliers` table of `parseTransferAmount`
(index.ts:653-665), with the JS `multipliers[unit] || 1` fallthrough
for a matched-but-unlisted unit (only `"iB"`). -/
def transferMultiplier (u : String) : Nat :=
  if u = "B" then 1
  else if u = "KiB" then 1024
  else if u = "MiB" then 1024 * 1024
  else if u = "GiB" then 1024 * 1024 * 1024
  else if u = "TiB" then 1024 * 1024 * 1024 * 1024
  else if u = "KB" then 1000
  else if u = "MB" then 1000 * 1000
  else if u = "GB" then 1000 * 1000 * 1000
  else if u = "TB" then 1000 * 1000 * 1000 * 1000
  else 1

/-- Matches `[KMGT]?i?B` at the head of `l`.  The JS engine's greedy
backtracking order over the two optional letters tries `XiB`, `XB`,
`iB`, `B`; the first literal prefix wins. -/
def matchUnitWord (l : List Char) : Option String :=
  match l with
  | c :: 'i' :: 'B' :: _ =>
    if c = 'K' || c = 'M' || c = 'G' || c = 'T' then
      some (String.mk [c, 'i', 'B'])
    else if c = 'i' then some "iB"
    else none
  | c :: 'B' :: _ =>
    if c = 'K' || c = 'M' || c = 'G' || c = 'T' then
      some (String.mk [c, 'B'])
    else if c = 'i' then some "iB"
    else if c = 'B' then some "B"
    else none
  | 'B' :: _ => some "B"
  | _ => none

/-- Matches `([\d.]+)\s*([KMGT]?i?B)` at the head of `l`: the exact
number and the unit multiplier.  Shrinking the greedy `[\d.]+` span
leaves a digit or dot where the unit must start, so no backtracking
into the span is possible. -/
def matchNumUnitAt (l : List Char) : Option (Nat × Nat × Nat) :=
  let span := l.takeWhile (fun c => c.isDigit || c = '.')
  if span = [] then none
  else
    let rest := l.dropWhile (fun c => c.isDigit || c = '.')
    match matchUnitWord (spanWs rest).2 with
    | none => none
    | some u =>
      some (parseFloatDec span |>.1, parseFloatDec span |>.2, transferMultiplier u)

/-- Performs the leftmost search for `([\d.]+)\s*([KMGT]?i?B)`. -/
def findNumUnit : List Char → Option (Nat × Nat × Nat)
  | [] => none
  | c :: t =>
    match matchNumUnitAt (c :: t) with
    | some r => some r
    | none => findNumUnit t

/-- Embeds `parseTransferAmount` (index.ts:646-666): no match returns 0,
otherwise `Math.floor(value * multiplier)`. -/
def parseTransferAmount (s : String) : Nat :=
  match findNumUnit s.data with
  | none => 0
  | some (m, k, mult) => m * mult / 10 ^ k

/-! ## §4.3 Status text parser (`parseWireGuardOutput`) -/

inductive PeerStatus
  | connected
  | disconnected
  | never_connected
deriving DecidableEq

/-- Holds the live peer state accumulated by the parser.  A `none` in an
optional field is a JS property that was never assigned (`undefined`),
which the record-store update paths strip; `lastHandshake = some none`
is an assigned `null` (unparseable handshake text). -/
structure LivePeer where
  publicKey : String
  status : PeerStatus
  endpoint : Option String := none
  allowedIps : Option String := none
  lastHandshake : Option (Option Int) := none
  transferRx : Option Nat := none
  transferTx : Option Nat := none
deriving DecidableEq

structure InterfaceInfo where
  name : String
  publicKey : Option String := none
  listenPort : Option Nat := none
deriving DecidableEq

/-- The JS object used as `peers` map: insertion-ordered keys,
assignment replaces in place. -/
def setPeer (m : List (String × LivePeer)) (k : String) (v : LivePeer) :
    List (String × LivePeer) :=
  if m.any (fun p => p.1 = k) then
    m.map (fun p => if p.1 = k then (k, v) else p)
  else m ++ [(k, v)]

def lookupPeer (m : List (String × LivePeer)) (k : String) : Option LivePeer :=
  (m.find? (fun p => p.1 = k)).map (fun p => p.2)

structure Snapshot where
  interface : Option InterfaceInfo
  peers : List (String × LivePeer)
deriving DecidableEq

/-- Embeds JS `line.split(':')[1].trim()` (the line is known to contain a
colon, so index 1 exists). -/
def tailFirstColon (line : List Char) : String :=
  String.mk (trimChars (((splitOnChar ':' line).drop 1).headD []))

/-- Embeds JS `line.split(':').slice(1).join(':').trim()`. -/
def tailAllColons (line : List Char) : String :=
  String.mk (trimChars
    ((splitOnChar ':' line).drop 1 |>.intersperse [':'] |>.flatten))

/-- Embeds JS `parseInt` on an already-trimmed string: leading digit run
(`NaN` on no digits is represented as 0; no claim reaches it). -/
def parseIntPrefix (s : String) : Nat :=
  digitsToNat (spanDigits s.data).1

/-- Captures a lazy group of `transfer:\s+(.+?)\s+received,...`: the shortest
nonempty prefix of `l` followed by `\s+<endWord>`; returns the group
and the remainder after `endWord`. -/
def lazyUpTo (endWord : List Char) (acc : List Char) :
    List Char → Option (List Char × List Char)
  | [] => none
  | c :: t =>
    match (if (spanWs t).1 = [] then none else stripWord endWord (spanWs t).2) with
    | some rest => some (acc ++ [c], rest)
    | none => lazyUpTo endWord (acc ++ [c]) t

/-- The `transfer` line regex
`/transfer:\s+(.+?)\s+received,\s+(.+?)\s+sent/` applied to a line
starting with `transfer:`: the two lazy groups. -/
def matchTransferLine (line : List Char) : Option (String × String) :=
  match stripWord "transfer:".data line with
  | none => none
  | some r0 =>
    if (spanWs r0).1 = [] then none
    else
      match lazyUpTo "received,".data [] (spanWs r0).2 with
      | none => none
      | some g1 =>
        if (spanWs g1.2).1 = [] then none
        else
          match lazyUpTo "sent".data [] (spanWs g1.2).2 with
          | none => none
          | some g2 => some (String.mk g1.1, String.mk g2.1)

structure ParseState where
  iface : Option InterfaceInfo
  peers : List (String × LivePeer)
  current : Option LivePeer
deriving DecidableEq

/-- Performs one iteration of the line loop of `parseWireGuardOutput`
(index.ts:527-577), dispatching on the same prefixes in the same
order. -/
def parseStatusLine (now : Int) (st : ParseState) (line : String) : ParseState :=
  let l := line.data
  if startsWithStr line "interface:" then
    { st with iface := some { name := tailFirstColon l } }
  else if startsWithStr line "public key:" then
    match st.current with
    | some p => { st with current := some { p with publicKey := tailFirstColon l } }
    | none =>
      match st.iface with
      | some i => { st with iface := some { i with publicKey := some (tailFirstColon l) } }
      | none => st
  else if startsWithStr line "listening port:" then
    match st.iface with
    | some i =>
      { st with iface := some { i with listenPort := some (parseIntPrefix (tailFirstColon l)) } }
    | none => st
  else if startsWithStr line "peer:" then
    let peers' := match st.current with
      | some p => setPeer st.peers p.publicKey p
      | none => st.peers
    { st with peers := peers',
              current := some { publicKey := tailFirstColon l, status := .connected } }
  else if startsWithStr line "endpoint:" then
    match st.current with
    | some p => { st with current := some { p with endpoint := some (tailAllColons l) } }
    | none => st
  else if startsWithStr line "allowed ips:" then
    match st.current with
    | some p => { st with current := some { p with allowedIps := some (tailFirstColon l) } }
    | none => st
  else if startsWithStr line "latest handshake:" then
    match st.current with
    | some p =>
      let t := tailAllColons l
      let p' := { p with lastHandshake := some (parseHandshakeTime now t),
                         status := if isRecentHandshake t then .connected else .disconnected }
      { st with current := some p' }
    | none => st
  else if startsWithStr line "transfer:" then
    match st.current with
    | some p =>
      match matchTransferLine l with
      | some g =>
        let p' := { p with transferRx := some (parseTransferAmount g.1),
                           transferTx := some (parseTransferAmount g.2) }
        { st with current := some p' }
      | none => st
    | none => st
  else st

/-- Embeds `parseWireGuardOutput` (index.ts:520-585): trim every line, drop
empties, run the line loop, flush the last open peer. -/
def parseWireGuardOutput (now : Int) (output : String) : Snapshot :=
  let lines := ((splitOnChar '\n' output.data).map (fun l => String.mk (trimChars l))).filter
    (fun s => s ≠ "")
  let final := lines.foldl (parseStatusLine now) { iface := none, peers := [], current := none }
  let peers := match final.current with
    | some p => setPeer final.peers p.publicKey p
    | none => final.peers
  { interface := final.iface, peers := peers }

/-! ## §4.4 Process invoker (`getWireGuardStatus`, mock fallback) -/

/-- Embeds `getMockWireGuardStatus` (index.ts:490-518), with `Date.now()`
passed explicitly: the two mock peers' `lastHandshake` are the current
time minus 90 000 ms and minus 300 000 ms. -/
def getMockWireGuardStatus (now : Int) : Snapshot :=
  { interface := some
      { name := "wg0",
        publicKey := some "xCi3cBO9Azd7L1jkKUWUVZNC2uEH7HTPY+05GrMkOUE=",
        listenPort := some 51820 },
    peers :=
      [("mock_peer_key_1",
        { publicKey := "mock_peer_key_1",
          status := .connected,
          endpoint := some "192.168.1.100:51820",
          allowedIps := some "10.7.0.2/32",
          lastHandshake := some (some (now - 90000)),
          transferRx := some 1248,
          transferTx := some 2456 }),
       ("mock_peer_key_2",
        { publicKey := "mock_peer_key_2",
          status := .disconnected,
          endpoint := some "192.168.1.101:51820",
          allowedIps := some "10.7.0.3/32",
          lastHandshake := some (some (now - 300000)),
          transferRx := some 5670,
          transferTx := some 8900 })] }

/-- Describes the outcome of running `sudo wg show wg0`. -/
inductive CmdOutcome
  | err
  | ok (stdout : String)
deriving DecidableEq

/-- Embeds `getWireGuardStatus` (index.ts:466-488): parse the stdout on
success, fall back to the mock snapshot on any failure (non-zero exit
or a raised error). -/
def getWireGuardStatus (o : CmdOutcome) (now : Int) : Snapshot :=
  match o with
  | .err => getMockWireGuardStatus now
  | .ok stdout => parseWireGuardOutput now stdout

/-! ## Record store (`wireguard_peers`, `wireguard_server`)

Rows of the two tables, per the migrations: `wireguard_peers` has
`UNIQUE (public_key)`, `name NOT NULL`, status constrained to the
three peer states with default `never_connected`, keepalive default
25, counters default 0; both tables carry an `updated_at` column that
a database trigger refreshes on every UPDATE (so every modelled update
also sets it). -/

structure PeerRecord where
  id : Nat
  userId : String
  name : String
  publicKey : String
  privateKey : String
  allowedIps : String
  endpoint : Option String := none
  persistentKeepalive : Nat := 25
  status : PeerStatus := .never_connected
  lastHandshake : Option Int := none
  transferRx : Nat := 0
  transferTx : Nat := 0
  configFilePath : Option String := none
  updatedAt : Int := 0
deriving DecidableEq

inductive ServerStatus
  | running
  | stopped
  | error
deriving DecidableEq

structure ServerRecord where
  id : Nat
  interfaceName : String := "wg0"
  listenPort : Nat := 51820
  privateKey : String
  publicKey : String
  networkSubnet : String := "10.0.0.0/24"
  dnsServers : List String := ["1.1.1.1", "8.8.8.8"]
  endpoint : Option String := none
  status : ServerStatus := .stopped
  updatedAt : Int := 0
deriving DecidableEq

/-! ## §4.5 Reconciliation engine (`syncWireGuardStatus`) -/

/-- The per-peer `updateData` of the sync loop (index.ts:427-434)
applied to a row: fields present in the live peer are copied
(`wgPeer?.x || fallback` collapses an absent field and `null` alike),
an absent peer zeroes status, handshake, counters and endpoint.  The
row's identity fields are untouched by the UPDATE. -/
def syncPeerUpdateData (snap : Snapshot) (now : Int) (r : PeerRecord) : PeerRecord :=
  match lookupPeer snap.peers r.publicKey with
  | some p =>
    { r with status := p.status,
             lastHandshake := p.lastHandshake.join,
             transferRx := p.transferRx.getD 0,
             transferTx := p.transferTx.getD 0,
             endpoint := p.endpoint,
             updatedAt := now }
  | none =>
    { r with status := .disconnected,
             lastHandshake := none,
             transferRx := 0,
             transferTx := 0,
             endpoint := none,
             updatedAt := now }

/-- The `for (const dbPeer of dbPeers)` loop (index.ts:422-445).
`failIds` are the rows whose UPDATE the store rejects; the builder
reports that rejection as a returned value and does not raise, so the
surrounding `try`/`catch` never fires and `updatedCount++` runs on
every iteration regardless. -/
def syncLoop (snap : Snapshot) (now : Int) (failIds : List Nat) :
    List PeerRecord → List PeerRecord → Nat → List PeerRecord × Nat
  | [], acc, n => (acc, n)
  | r :: rest, acc, n =>
    let r' := if r.id ∈ failIds then r else syncPeerUpdateData snap now r
    syncLoop snap now failIds rest (acc ++ [r']) (n + 1)

/-- The server-status update of `syncWireGuardStatus`
(index.ts:394-411): when a server row exists it is updated (`running`
iff the snapshot has an interface; public key / listen port copied
when the snapshot carries them, otherwise the `undefined` field is
stripped from the UPDATE and the column keeps its value).  When the
table is empty (`existingServer` is null) nothing at all is written:
there is no insert branch. -/
def syncServerUpdate (snap : Snapshot) (now : Int) :
    Option ServerRecord → Option ServerRecord
  | none => none
  | some s =>
    some { s with
      status := if snap.interface.isSome then .running else .stopped,
      publicKey := ((snap.interface.bind (fun i => i.publicKey)).getD s.publicKey),
      listenPort := ((snap.interface.bind (fun i => i.listenPort)).getD s.listenPort),
      updatedAt := now }

structure SyncResult where
  server : Option ServerRecord
  peers : List PeerRecord
  peersUpdated : Nat
  success : Bool
deriving DecidableEq

/-- Embeds `syncWireGuardStatus` (index.ts:388-464) over an explicit store
state: snapshot already obtained, server row updated if present, every
peer row reconciled, and the `{ success: true, peersUpdated }`
response. -/
def syncWireGuardStatus (snap : Snapshot) (now : Int) (failIds : List Nat)
    (server : Option ServerRecord) (db : List PeerRecord) : SyncResult :=
  let looped := syncLoop snap now failIds db [] 0
  { server := syncServerUpdate snap now server,
    peers := looped.1,
    peersUpdated := looped.2,
    success := true }

/-! ## `getPeerStatus` (index.ts:323-386) -/

/-- Embeds UPDATE … WHERE id = peerId AND user_id = uid. -/
def updateById (db : List PeerRecord) (peerId : Nat) (uid : String)
    (r' : PeerRecord) : List PeerRecord :=
  db.map (fun r => if r.id == peerId && r.userId == uid then r' else r)

/-- Embeds `getPeerStatus`: look the row up by id and owner; when its public
key is absent from the live snapshot only `status` and
`last_handshake` are written (plus the trigger's `updated_at`) — the
counters and endpoint keep their persisted values; when present, each
field of the live peer that exists is copied (an `undefined` field is
stripped from the UPDATE and the column keeps its value, an assigned
`null` handshake is written as NULL). -/
def getPeerStatus (uid : String) (peerId : Nat) (snap : Snapshot) (now : Int)
    (db : List PeerRecord) : Except String (PeerRecord × List PeerRecord) :=
  match db.find? (fun r => r.id == peerId && r.userId == uid) with
  | none => .error "Peer not found"
  | some rec =>
    match lookupPeer snap.peers rec.publicKey with
    | none =>
      let r' := { rec with status := .disconnected, lastHandshake := none,
                           updatedAt := now }
      .ok (r', updateById db peerId uid r')
    | some p =>
      let r' := { rec with
        status := p.status,
        lastHandshake := match p.lastHandshake with
          | none => rec.lastHandshake
          | some v => v,
        transferRx := p.transferRx.getD rec.transferRx,
        transferTx := p.transferTx.getD rec.transferTx,
        endpoint := match p.endpoint with
          | none => rec.endpoint
          | some e => some e,
        updatedAt := now }
      .ok (r', updateById db peerId uid r')

/-! ## §4.6 `createPeer` (index.ts:140-196) -/

/-- The INSERT into `wireguard_peers`.  The store enforces
`name NOT NULL` (a missing request field arrives as a stripped
`undefined` column) and `UNIQUE (public_key)`; its error message is
surfaced verbatim by the caller.  Unsupplied columns take the schema
defaults. -/
def insertPeer (db : List PeerRecord) (newId : Nat) (uid : String)
    (name : Option String) (publicKey privateKey allowedIps : String)
    (now : Int) : Except String (PeerRecord × List PeerRecord) :=
  match name with
  | none => .error "null value in column \"name\" violates not-null constraint"
  | some n =>
    if db.any (fun r => r.publicKey == publicKey) then
      .error "duplicate key value violates unique constraint \"wireguard_peers_public_key_unique\""
    else
      let row : PeerRecord :=
        { id := newId, userId := uid, name := n, publicKey := publicKey,
          privateKey := privateKey, allowedIps := allowedIps, updatedAt := now }
      .ok (row, db ++ [row])

/-- Embeds `generatePeerConfig` (index.ts:198-220): template substitution
from the peer row and the server row; throws when no server row
exists.  `dnsServers` joined falsy-defaults to `1.1.1.1, 8.8.8.8`,
keepalive falsy-defaults to 25. -/
def generatePeerConfig (srv : ServerRecord) (peer : PeerRecord) : String :=
  "[Interface]\nPrivateKey = " ++ peer.privateKey ++
  "\nAddress = " ++ peer.allowedIps ++
  "\nDNS = " ++ (if srv.dnsServers.isEmpty then "1.1.1.1, 8.8.8.8"
                 else String.intercalate ", " srv.dnsServers) ++
  "\n\n[Peer]\nPublicKey = " ++ srv.publicKey ++
  "\nEndpoint = " ++ (srv.endpoint.getD "your-server.example.com:51820") ++
  "\nAllowedIPs = 0.0.0.0/0\nPersistentKeepalive = " ++
  toString (if peer.persistentKeepalive = 0 then 25 else peer.persistentKeepalive)

/-- Embeds `createPeer` (index.ts:140-196) with the externally generated key
pair passed in.  The request fields are destructured with no
validation whatsoever: a missing or empty `allowedIps` falls back to
the literal `'10.0.0.2/32'` (`allowedIps || '10.0.0.2/32'`) and the
insert proceeds; an insert failure (missing name, duplicate public
key) is rethrown as the one generic `Failed to create peer: …` error.
After the insert, the config text is generated (raising `Server
configuration not found` when no server row exists — this happens
outside any try), the config file write and the live-interface `wg
set` are best-effort, and the row's `config_file_path` is written
back.  Returns the response's `{ peer, configContent }` (the inserted
row, pre-path-update, as the source returns it) together with the
final store state. -/
def createPeer (uid : String) (name allowedIps : Option String)
    (privateKey publicKey : String) (server : Option ServerRecord)
    (db : List PeerRecord) (newId : Nat) (now : Int) :
    Except String (PeerRecord × String × List PeerRecord) :=
  let ips := match allowedIps with
    | some s => if s = "" then "10.0.0.2/32" else s
    | none => "10.0.0.2/32"
  match insertPeer db newId uid name publicKey privateKey ips now with
  | .error e => .error ("Failed to create peer: " ++ e)
  | .ok inserted =>
    match server with
    | none => .error "Server configuration not found"
    | some srv =>
      let configContent := generatePeerConfig srv inserted.1
      let configPath := "/root/" ++ inserted.1.name ++ ".conf"
      let db' := updateById inserted.2 newId uid
        { inserted.1 with configFilePath := some configPath, updatedAt := now }
      .ok (inserted.1, configContent, db')

/-! ## Shared reconciliation lemmas -/

/-- One step of the sync loop applied to a single row. -/
def syncStep (snap : Snapshot) (now : Int) (failIds : List Nat) (r : PeerRecord) :
    PeerRecord :=
  if r.id ∈ failIds then r else syncPeerUpdateData snap now r

theorem syncLoop_eq (snap : Snapshot) (now : Int) (F : List Nat)
    (db : List PeerRecord) (acc : List PeerRecord) (n : Nat) :
    syncLoop snap now F db acc n = (acc ++ db.map (syncStep snap now F), n + db.length) := by
  induction db generalizing acc n with
  | nil => simp [syncLoop]
  | cons r rest ih =>
    simp [syncLoop, ih, syncStep]
    omega

/-- Erases the trigger-maintained `updated_at` timestamp; the
spec-level `PeerRecord` (§3) carries no such column. -/
def stripPeerTime (r : PeerRecord) : PeerRecord := { r with updatedAt := 0 }

theorem syncPeerUpdateData_id (snap : Snapshot) (now : Int) (r : PeerRecord) :
    (syncPeerUpdateData snap now r).id = r.id := by
  unfold syncPeerUpdateData
  cases lookupPeer snap.peers r.publicKey <;> rfl

theorem syncPeerUpdateData_key (snap : Snapshot) (now : Int) (r : PeerRecord) :
    (syncPeerUpdateData snap now r).publicKey = r.publicKey := by
  unfold syncPeerUpdateData
  cases lookupPeer snap.peers r.publicKey <;> rfl

theorem syncStep_idem (snap : Snapshot) (t1 t2 : Int) (F : List Nat) (r : PeerRecord) :
    stripPeerTime (syncStep snap t2 F (syncStep snap t1 F r)) =
      stripPeerTime (syncStep snap t1 F r) := by
  unfold syncStep
  by_cases h : r.id ∈ F
  · simp [h]
  · simp [h, syncPeerUpdateData_id, syncPeerUpdateData_key]
    unfold syncPeerUpdateData
    cases hl : lookupPeer snap.peers r.publicKey with
    | none => simp [hl, stripPeerTime]
    | some p => simp [hl, stripPeerTime]

/-- Erases every handshake timestamp of a snapshot. -/
def eraseSnapHandshakes (s : Snapshot) : Snapshot :=
  { s with peers := s.peers.map (fun p => (p.1, { p.2 with lastHandshake := none })) }

/-! ## The claims -/

/-- C1 (code_bug evidence).  The recency predicate is specified to hold
iff the handshake string resolves to at most 180 seconds ago, and its
own comment says "within last 3 minutes"; but on the multi-clause
`wg show` wording `"1 hour, 2 seconds ago"` — which resolves to 3602
seconds — the predicate still returns `true`, because its regex search
latches onto the trailing `"2 seconds ago"` clause.  The single-clause
spec examples do behave as claimed. -/
theorem isRecentHandshake_ignores_leading_clauses :
    renderClauses [(1, .hour), (2, .second)] = "1 hour, 2 seconds ago" ∧
    clausesTotalSeconds [(1, .hour), (2, .second)] = 3602 ∧
    isRecentHandshake "1 hour, 2 seconds ago" = true ∧
    isRecentHandshake "90 seconds ago" = true ∧
    isRecentHandshake "5 minutes ago" = false ∧
    isRecentHandshake "never" = false :=
  ⟨rfl, rfl, rfl, rfl, rfl, rfl⟩

/-- C2 (code_bug evidence).  The time parser is specified to sum ALL
clauses (4862 seconds for the spec example), and its own comment gives
`"1 hour, 21 minutes, 2 seconds ago"` as a parsed form; but the global
regex requires every clause to end in `ago`, so only the final
`"2 seconds ago"` matches and the result is `now` minus 2 seconds
(2000 ms), not `now` minus 4862 seconds. -/
theorem parseHandshakeTime_drops_leading_clauses (now : Int) :
    renderClauses [(1, .hour), (21, .minute), (2, .second)] =
      "1 hour, 21 minutes, 2 seconds ago" ∧
    clausesTotalSeconds [(1, .hour), (21, .minute), (2, .second)] = 4862 ∧
    parseHandshakeTime now "1 hour, 21 minutes, 2 seconds ago" = some (now - 2000) :=
  ⟨rfl, rfl, rfl⟩

/-- C3 (confirmed).  On the eight-line status text of the spec the
parser produces the interface `wg0`/`SERVERKEY`/51820 and exactly one
peer entry, keyed by `PEERKEY1`, with status connected (10 seconds is
recent), transferRx 1048576, transferTx 512000, and endpoint
`1.2.3.4:51820` kept verbatim past its second colon. -/
theorem parseWireGuardOutput_single_peer_example (now : Int) :
    parseWireGuardOutput now
      "interface: wg0\npublic key: SERVERKEY\nlistening port: 51820\npeer: PEERKEY1\nendpoint: 1.2.3.4:51820\nallowed ips: 10.7.0.2/32\nlatest handshake: 10 seconds ago\ntransfer: 1.00 MiB received, 500.00 KiB sent" =
      { interface := some
          { name := "wg0", publicKey := some "SERVERKEY", listenPort := some 51820 },
        peers := [("PEERKEY1",
          { publicKey := "PEERKEY1",
            status := .connected,
            endpoint := some "1.2.3.4:51820",
            allowedIps := some "10.7.0.2/32",
            lastHandshake := some (some (now - 10000)),
            transferRx := some 1048576,
            transferTx := some 512000 })] } :=
  rfl

/-- C4 (confirmed).  During sync, every persisted row whose public key
is absent from the live snapshot — whatever its prior field values —
is updated to disconnected status, null handshake, zero counters (and
a nulled endpoint). -/
theorem sync_absent_peer_zeroed (snap : Snapshot) (now : Int)
    (server : Option ServerRecord) (db : List PeerRecord) (r : PeerRecord)
    (hmem : r ∈ db) (habs : lookupPeer snap.peers r.publicKey = none) :
    { r with status := .disconnected, lastHandshake := none, transferRx := 0,
             transferTx := 0, endpoint := none, updatedAt := now }
      ∈ (syncWireGuardStatus snap now [] server db).peers := by
  simp [syncWireGuardStatus, syncLoop_eq]
  exact ⟨r, hmem, by simp [syncStep, syncPeerUpdateData, habs]⟩

/-- Witness row for C4. -/
def c4row : PeerRecord :=
  { id := 1, userId := "u1", name := "alice", publicKey := "KEYA",
    privateKey := "sk", allowedIps := "10.7.0.2/32",
    endpoint := some "9.9.9.9:1", status := .connected,
    lastHandshake := some 4444, transferRx := 10, transferTx := 20, updatedAt := 3 }

theorem sync_absent_peer_zeroed_witness :
    { c4row with
        status := .disconnected, lastHandshake := none, transferRx := 0,
        transferTx := 0, endpoint := none, updatedAt := 9 }
      ∈ (syncWireGuardStatus { interface := none, peers := [] } 9 [] none [c4row]).peers :=
  sync_absent_peer_zeroed { interface := none, peers := [] } 9 none [c4row] c4row
    (List.Mem.head _) rfl

/-- C5 (confirmed).  Sync is idempotent: a second run against the same
live snapshot (and the same set of store rejections) leaves every
persisted peer row with identical field values — identical up to the
trigger-maintained `updated_at` column, which is not part of the
spec's PeerRecord and necessarily carries the wall-clock instant of
each run. -/
theorem sync_idempotent_modulo_timestamp (snap : Snapshot) (t1 t2 : Int)
    (F : List Nat) (server : Option ServerRecord) (db : List PeerRecord) :
    ((syncWireGuardStatus snap t2 F
        (syncWireGuardStatus snap t1 F server db).server
        (syncWireGuardStatus snap t1 F server db).peers).peers).map stripPeerTime =
      ((syncWireGuardStatus snap t1 F server db).peers).map stripPeerTime := by
  simp [syncWireGuardStatus, syncLoop_eq, List.map_map]
  intro r _
  exact syncStep_idem snap t1 t2 F r

/-- Rows for the C6 scenario: three peers, all previously connected
with live-looking fields, reconciled against an empty snapshot while
the store rejects the update of row 2. -/
def c6row (i : Nat) (nm k : String) : PeerRecord :=
  { id := i, userId := "u1", name := nm, publicKey := k, privateKey := "sk",
    allowedIps := "10.7.0.2/32", endpoint := some "1.2.3.4:5", status := .connected,
    lastHandshake := some 111, transferRx := 55, transferTx := 66, updatedAt := 3 }

/-- C6 (code_bug evidence).  A store failure on peer 2 of 3 indeed
does not abort the loop — peers 1 and 3 are still updated and the
operation still reports success — but the reported `peersUpdated` is
3, not the claimed 2: the query builder returns its error as a value
instead of raising, so the `catch`-and-skip branch around the counter
never runs and every iteration counts. -/
theorem sync_partial_failure_counts_all_peers :
    (syncWireGuardStatus { interface := none, peers := [] } 9 [2] none
        [c6row 1 "p1" "k1", c6row 2 "p2" "k2", c6row 3 "p3" "k3"]).peers =
      [{ c6row 1 "p1" "k1" with
          status := .disconnected, lastHandshake := none,
          transferRx := 0, transferTx := 0, endpoint := none, updatedAt := 9 },
       c6row 2 "p2" "k2",
       { c6row 3 "p3" "k3" with
          status := .disconnected, lastHandshake := none,
          transferRx := 0, transferTx := 0, endpoint := none, updatedAt := 9 }] ∧
    (syncWireGuardStatus { interface := none, peers := [] } 9 [2] none
        [c6row 1 "p1" "k1", c6row 2 "p2" "k2", c6row 3 "p3" "k3"]).peersUpdated = 3 ∧
    (syncWireGuardStatus { interface := none, peers := [] } 9 [2] none
        [c6row 1 "p1" "k1", c6row 2 "p2" "k2", c6row 3 "p3" "k3"]).success = true :=
  ⟨rfl, rfl, rfl⟩

/-- C7 (code_bug evidence).  When no ServerRecord exists, sync creates
none — the guarded update has no insert branch, despite the source
comment "(use upsert to handle empty table)" — while an existing
record is updated exactly as claimed: running iff the snapshot
interface is non-null, key and port copied when present. -/
theorem sync_server_update_without_insert (snap : Snapshot) (now : Int)
    (F : List Nat) (db : List PeerRecord) (s : ServerRecord) :
    (syncWireGuardStatus snap now F none db).server = none ∧
    (syncWireGuardStatus snap now F (some s) db).server =
      some { s with
        status := if snap.interface.isSome then .running else .stopped,
        publicKey := ((snap.interface.bind (fun i => i.publicKey)).getD s.publicKey),
        listenPort := ((snap.interface.bind (fun i => i.listenPort)).getD s.listenPort),
        updatedAt := now } :=
  ⟨rfl, rfl⟩

/-- C8 (counterexample).  Two invocations of the status-command
fallback path at different instants do not produce identical data:
the mock peers embed handshakes relative to the invocation time. -/
theorem mock_snapshot_differs_across_times :
    getWireGuardStatus .err 0 ≠ getWireGuardStatus .err 1000 := by
  decide

/-- C8 (amended).  On every failure of the status command the status
query returns the mock snapshot, which is deterministic given the
invocation instant: interface data and every peer field except
`lastHandshake` are fixed constants, and the handshakes of the two mock
peers are exactly the invocation time minus 90 and 300 seconds. -/
theorem mock_snapshot_fixed_modulo_handshake (t : Int) :
    getWireGuardStatus .err t = getMockWireGuardStatus t ∧
    eraseSnapHandshakes (getMockWireGuardStatus t) =
      eraseSnapHandshakes (getMockWireGuardStatus 0) ∧
    (getMockWireGuardStatus t).peers.map (fun p => p.2.lastHandshake) =
      [some (some (t - 90000)), some (some (t - 300000))] :=
  ⟨rfl, rfl, rfl⟩

/-- Server row used by the C9 scenarios. -/
def c9srv : ServerRecord :=
  { id := 1, privateKey := "SRVSK", publicKey := "SRVPK",
    endpoint := some "vpn.example.net:51820", status := .running }

/-- C9 (counterexample).  `create` with a missing `allowedIPs` does
not fail with a ValidationError — it does not fail at all: the insert
proceeds with the default `10.0.0.2/32`. -/
theorem createPeer_missing_allowedIps_succeeds :
    (createPeer "u1" (some "alice") none "SK" "PK" (some c9srv) [] 7 0).toOption.map
        (fun out => out.1.allowedIps) = some "10.0.0.2/32" :=
  rfl

/-- C9 (amended).  `create` performs no input validation: a missing
(or empty) `allowedIPs` is silently replaced by the default
`10.0.0.2/32` and creation succeeds; a missing name or a duplicate
public key makes the store INSERT fail and surfaces as the single
generic `Failed to create peer: …` error — no distinguished
ValidationError or ConflictError exists. -/
theorem createPeer_no_input_validation (uid n sk pk : String)
    (aips : Option String) (srv : ServerRecord) (db : List PeerRecord)
    (newId : Nat) (now : Int) :
    (db.any (fun r => r.publicKey == pk) = false →
      (createPeer uid (some n) none sk pk (some srv) db newId now).toOption.map
        (fun out => out.1.allowedIps) = some "10.0.0.2/32") ∧
    (createPeer uid none aips sk pk (some srv) db newId now =
      .error "Failed to create peer: null value in column \"name\" violates not-null constraint") ∧
    (db.any (fun r => r.publicKey == pk) = true →
      createPeer uid (some n) aips sk pk (some srv) db newId now =
        .error "Failed to create peer: duplicate key value violates unique constraint \"wireguard_peers_public_key_unique\"") := by
  refine ⟨fun h => ?_, ?_, fun h => ?_⟩
  · simp [createPeer, insertPeer, h, Except.toOption]
  · simp [createPeer, insertPeer]
  · have : aips.getD "x" = aips.getD "x" := rfl
    cases aips with
    | none => simp [createPeer, insertPeer, h]
    | some s => by_cases hs : s = "" <;> simp [createPeer, insertPeer, h, hs]

/-- Colliding row for the C9 witness. -/
def c9coll : PeerRecord :=
  { id := 3, userId := "u2", name := "bob", publicKey := "PK",
    privateKey := "sk2", allowedIps := "10.7.0.3/32" }

theorem createPeer_no_input_validation_witness :
    ((createPeer "u1" (some "alice") none "SK" "PK" (some c9srv) [] 7 0).toOption.map
        (fun out => out.1.allowedIps) = some "10.0.0.2/32") ∧
    (createPeer "u1" none none "SK" "PK" (some c9srv) [] 7 0 =
      .error "Failed to create peer: null value in column \"name\" violates not-null constraint") ∧
    (createPeer "u1" (some "alice") none "SK" "PK" (some c9srv) [c9coll] 7 0 =
      .error "Failed to create peer: duplicate key value violates unique constraint \"wireguard_peers_public_key_unique\"") :=
  ⟨(createPeer_no_input_validation "u1" "alice" "SK" "PK" none c9srv [] 7 0).1 (by decide),
   (createPeer_no_input_validation "u1" "alice" "SK" "PK" none c9srv [] 7 0).2.1,
   (createPeer_no_input_validation "u1" "alice" "SK" "PK" none c9srv [c9coll] 7 0).2.2
     (by decide)⟩

/-- C10 (confirmed).  When the looked-up peer is absent from the live
snapshot, `get_peer_status` writes only `status := disconnected` and
`last_handshake := null` (plus the trigger timestamp): the transfer
counters and endpoint of the row keep their prior persisted values —
unlike sync, whose treatment of the very same absent row zeroes the
counters and nulls the endpoint. -/
theorem getPeerStatus_absent_peer_frame (uid : String) (pid : Nat)
    (snap : Snapshot) (now : Int) (db : List PeerRecord) (r : PeerRecord)
    (hfind : db.find? (fun x => x.id == pid && x.userId == uid) = some r)
    (habs : lookupPeer snap.peers r.publicKey = none) :
    getPeerStatus uid pid snap now db =
      .ok ({ r with status := .disconnected, lastHandshake := none, updatedAt := now },
        updateById db pid uid
          { r with status := .disconnected, lastHandshake := none, updatedAt := now }) ∧
    syncPeerUpdateData snap now r =
      { r with status := .disconnected, lastHandshake := none, transferRx := 0,
               transferTx := 0, endpoint := none, updatedAt := now } := by
  constructor
  · simp only [getPeerStatus, hfind, habs]
  · simp [syncPeerUpdateData, habs]

/-- Witness row for C10: nonzero counters and a recorded endpoint. -/
def c10row : PeerRecord :=
  { id := 2, userId := "u1", name := "carol", publicKey := "KEYC",
    privateKey := "sk", allowedIps := "10.7.0.4/32",
    endpoint := some "8.8.8.8:7", status := .connected,
    lastHandshake := some 500, transferRx := 77, transferTx := 88, updatedAt := 3 }

theorem getPeerStatus_absent_peer_frame_witness :
    getPeerStatus "u1" 2 { interface := none, peers := [] } 9 [c10row] =
      .ok ({ c10row with
              status := .disconnected, lastHandshake := none, updatedAt := 9 },
        updateById [c10row] 2 "u1"
          { c10row with
              status := .disconnected, lastHandshake := none, updatedAt := 9 }) ∧
    syncPeerUpdateData { interface := none, peers := [] } 9 c10row =
      { c10row with
          status := .disconnected, lastHandshake := none, transferRx := 0,
          transferTx := 0, endpoint := none, updatedAt := 9 } :=
  getPeerStatus_absent_peer_frame "u1" 2 { interface := none, peers := [] } 9
    [c10row] c10row rfl rfl

end WgMgmt
